import Mathlib

/- Verification of the agent-orchestration pipeline of the
   MongoDB Cerebral-Voice-Squad repository.

   Shallow embedding of:
   - src/server/brave-search.ts  (performResearch, shouldPerformResearch)
   - the Minimax text-to-speech module (generateSpeech, generateAgentSpeech,
     truncateTextForTTS)
   - src/server/routes.ts  (the POST /api/agents/discuss handler:
     validation, history lookup, research gate, prompt assembly, token
     budgeting, truncation detection, speech side-call, response shaping)
   - the client-side pipeline driver in
     src/client/src/components/CodeDisplay.tsx (handleTranscript).

   External collaborators (Brave Search, Gemini, Minimax, MongoDB) are
   modelled as oracles carried in an environment record: each oracle value
   describes the outcome the external call would have produced, and the
   embedded code branches on it exactly where the source branches on the
   call result.  JavaScript strings are modelled as Lean strings over code
   points (the sources only ever index by whole-string lengths, so the
   UTF-16 versus code-point distinction does not affect any modelled path).
   JavaScript falsiness of strings (empty string is falsy) is modelled
   explicitly where the source relies on it. -/

namespace VoiceSquad

/- ------------------------------------------------------------------ -/
/- Generic string helpers shared by the embedded modules              -/
/- ------------------------------------------------------------------ -/

/-- The ASCII whitespace characters recognised by the embedding of the
JavaScript regex class backslash-s and of String.prototype.trim. -/
def isJsWhitespace (c : Char) : Bool :=
  c == ' ' || c == '\t' || c == '\n' || c == '\r'

/-- Embedding of JavaScript String.prototype.trim (ASCII whitespace). -/
def jsTrim (s : String) : String :=
  String.mk (((s.data.dropWhile isJsWhitespace).reverse.dropWhile isJsWhitespace).reverse)

/-- Embedding of JavaScript s.substring(0, n). -/
def jsSubstringTo (s : String) (n : Nat) : String :=
  String.mk (s.data.take n)

/-- JavaScript `opt || dflt` for a possibly-absent string: both `undefined`
and the empty string are falsy and select the default. -/
def jsOrString (v : Option String) (dflt : String) : String :=
  match v with
  | some s => if s = "" then dflt else s
  | none => dflt

/-- JavaScript truthiness of a possibly-absent string value. -/
def jsTruthy : Option String → Bool
  | some s => !(s == "")
  | none => false

/-- Is pat a prefix of the second list (decision procedure used by the
embedding of String.prototype.includes)? -/
def charsPrefix : List Char → List Char → Bool
  | [], _ => true
  | _ :: _, [] => false
  | a :: as, b :: bs => a == b && charsPrefix as bs

/-- Does the second list contain pat as a contiguous segment? -/
def charsIncludes (pat : List Char) : List Char → Bool
  | [] => charsPrefix pat []
  | c :: rest => charsPrefix pat (c :: rest) || charsIncludes pat rest

/-- Embedding of JavaScript s.includes(pat). -/
def strIncludes (s pat : String) : Bool :=
  charsIncludes pat.data s.data

/-- Propositional substring containment: pat occurs contiguously in s. -/
def strContains (s pat : String) : Prop :=
  pat.data <:+: s.data

instance (s pat : String) : Decidable (strContains s pat) := by
  unfold strContains; infer_instance

/-- ASCII lower-casing of one character (the fragment of
String.prototype.toLowerCase exercised by the source, whose research
patterns are all ASCII). -/
def charToLowerAscii (c : Char) : Char :=
  if 'A' ≤ c ∧ c ≤ 'Z' then Char.ofNat (c.toNat + 32) else c

/-- Embedding of JavaScript s.toLowerCase() on the ASCII fragment. -/
def toLowerAscii (s : String) : String :=
  String.mk (s.data.map charToLowerAscii)

/- ------------------------------------------------------------------ -/
/- src/server/brave-search.ts                                         -/
/- ------------------------------------------------------------------ -/

/-- SearchResult of brave-search.ts: title, url, description. -/
structure SearchResult where
  title : String
  url : String
  description : String
deriving DecidableEq

/-- ResearchData of brave-search.ts.  The source marks allResults and
totalAvailable as optional, but every producer (performResearch and the
mock) populates them, so they are modelled as present. -/
structure ResearchData where
  query : String
  results : List SearchResult
  allResults : List SearchResult
  totalAvailable : Nat
  summary : String
deriving DecidableEq

/-- One raw item of the Brave web-search response; each field may be
absent (the source reads result.title, result.url, result.description
with falsy fallbacks). -/
structure RawSearchResult where
  title : Option String
  url : Option String
  description : Option String
deriving DecidableEq

/-- The mapping applied to each raw Brave result:
title with fallback Untitled, url and description with fallback empty. -/
def toSearchResult (r : RawSearchResult) : SearchResult :=
  { title := jsOrString r.title "Untitled"
    url := jsOrString r.url ""
    description := jsOrString r.description "" }

/-- Outcome of the client.webSearch call, as an oracle: the call may
throw, may produce a response without a web.results field, or may
produce a (possibly empty) raw result list. -/
inductive SearchOutcome where
  | throws
  | noWebResults
  | ok (raws : List RawSearchResult)
deriving DecidableEq

/-- Embedding of performResearch of brave-search.ts.  Returns none when
the API key is not configured, when the call throws, when the response
has no web.results, and also when the result list is empty: in that last
case the source dereferences allResults[0].title on undefined, the
TypeError is caught by the surrounding try, and null is returned. -/
def performResearch (apiKeyConfigured : Bool) (query : String)
    (outcome : SearchOutcome) : Option ResearchData :=
  if !apiKeyConfigured then none
  else
    match outcome with
    | SearchOutcome.throws => none
    | SearchOutcome.noWebResults => none
    | SearchOutcome.ok raws =>
      match (raws.take 5).map toSearchResult with
      | [] => none
      | top :: rest =>
        some { query := query
               results := [top]
               allResults := top :: rest
               totalAvailable := (top :: rest).length
               summary := top.title ++ "\n" ++ top.description ++ "\nSource: " ++ top.url }

/-- The fixed list of research-question patterns of shouldPerformResearch. -/
def researchQuestionPatterns : List String :=
  [ "what is the best"
  , "what\u0027s the best"
  , "what are the best"
  , "what are best practices"
  , "what is best practice"
  , "how should i"
  , "how should we"
  , "what is recommended"
  , "what\u0027s recommended"
  , "which is better"
  , "which approach"
  , "what approach"
  , "compare"
  , "research"
  , "show me best"
  , "find best"
  , "lookup"
  , "search for" ]

/-- Embedding of shouldPerformResearch of brave-search.ts: case-insensitive
substring match of the user prompt against the fixed pattern list. -/
def shouldPerformResearch (userPrompt : String) : Bool :=
  researchQuestionPatterns.any (fun p => strIncludes (toLowerAscii userPrompt) p)

/- ------------------------------------------------------------------ -/
/- Minimax text-to-speech module (generateSpeech, generateAgentSpeech) -/
/- ------------------------------------------------------------------ -/

/-- The decoded JSON body of a Minimax t2a response.  baseResp models
data.base_resp (outer option: field presence; inner option: presence of
status_code); the three audio fields model data.data.audio, data.audio
and data.extra_info.audio_file. -/
structure MinimaxResp where
  baseResp : Option (Option Int)
  dataAudio : Option String
  audio : Option String
  extraInfoAudioFile : Option String
deriving DecidableEq

/-- Outcome of the fetch to the Minimax endpoint, as an oracle. -/
inductive FetchOutcome where
  | throws (message : String)
  | httpError (status : Nat) (body : String)
  | ok (data : MinimaxResp)
deriving DecidableEq

/-- Environment of the text-to-speech module: which credentials are
configured, and what the network call would produce. -/
structure TTSEnv where
  apiKeyConfigured : Bool
  groupIdConfigured : Bool
  fetchOutcome : FetchOutcome
deriving DecidableEq

/-- The check `data.base_resp && data.base_resp.status_code !== 0`:
true when base_resp is present and its status_code is absent or
different from 0. -/
def baseRespError (data : MinimaxResp) : Bool :=
  match data.baseResp with
  | some (some code) => !(code == 0)
  | some none => true
  | none => false

/-- The audio-field selection chain of generateSpeech: first truthy one of
data.data.audio, data.audio, data.extra_info.audio_file (empty strings
are falsy and skipped, exactly as in the source). -/
def pickAudioHex (data : MinimaxResp) : Option String :=
  if jsTruthy data.dataAudio then data.dataAudio
  else if jsTruthy data.audio then data.audio
  else if jsTruthy data.extraInfoAudioFile then data.extraInfoAudioFile
  else none

/-- Voice profile of AGENT_VOICES.  speedPct is the speed multiplier
scaled by 100 (the source uses float literals such as 0.95); the voice
profile only shapes the request payload and never influences the
modelled call outcome, which lives in TTSEnv. -/
structure VoiceConfig where
  voiceId : String
  emotion : String
  speedPct : Nat
deriving DecidableEq

/-- The AGENT_VOICES table of the text-to-speech module. -/
def AGENT_VOICES (agentRole : String) : Option VoiceConfig :=
  if agentRole = "architect" then
    some { voiceId := "male-qn-qingse", emotion := "neutral", speedPct := 95 }
  else if agentRole = "backend" then
    some { voiceId := "male-qn-qingse", emotion := "neutral", speedPct := 110 }
  else if agentRole = "frontend" then
    some { voiceId := "female-shaonv", emotion := "happy", speedPct := 105 }
  else if agentRole = "qa" then
    some { voiceId := "male-qn-jingying", emotion := "neutral", speedPct := 98 }
  else none

/-- Embedding of generateSpeech.  The returned string stands for the audio
buffer decoded from the hex payload (an injective re-encoding the claims
never inspect).  All failures — missing API key, missing group id, a
thrown fetch, a non-OK HTTP status, a base_resp error code, or no truthy
audio field — yield none; the source catches every exception internally,
so the function never throws to its caller. -/
def generateSpeech (env : TTSEnv) (text : String) (voiceConfig : VoiceConfig) : Option String :=
  if !env.apiKeyConfigured then none
  else if !env.groupIdConfigured then none
  else
    match env.fetchOutcome with
    | FetchOutcome.throws _ => none
    | FetchOutcome.httpError _ _ => none
    | FetchOutcome.ok data =>
      if baseRespError data then none
      else
        match pickAudioHex data with
        | some hex => some hex
        | none => none

/-- The last index of character c in s, minus-one when absent
(JavaScript String.prototype.lastIndexOf). -/
def charsLastIndexOf : List Char → Char → Nat → Int → Int
  | [], _, _, best => best
  | a :: rest, c, i, best =>
    charsLastIndexOf rest c (i + 1) (if a == c then (i : Int) else best)

/-- Embedding of JavaScript s.lastIndexOf(c). -/
def strLastIndexOf (s : String) (c : Char) : Int :=
  charsLastIndexOf s.data c 0 (-1)

/-- Embedding of truncateTextForTTS: cut the text to maxChars, preferring
a sentence boundary when one falls in the trailing 30 percent of the
budget (the float comparison lastSentenceEnd > maxChars * 0.7 is
expressed over integers as 10 * lastSentenceEnd > 7 * maxChars). -/
def truncateTextForTTS (text : String) (maxChars : Nat) : String :=
  if text.length ≤ maxChars then text
  else
    let truncated := jsSubstringTo text maxChars
    let lastPeriod := strLastIndexOf truncated '.'
    let lastExclamation := strLastIndexOf truncated '!'
    let lastQuestion := strLastIndexOf truncated '?'
    let lastSentenceEnd := max lastPeriod (max lastExclamation lastQuestion)
    if 10 * lastSentenceEnd > 7 * (maxChars : Int) then
      jsSubstringTo text (lastSentenceEnd + 1).toNat
    else
      truncated ++ "..."

/-- Embedding of generateAgentSpeech: pick the role voice (architect
fallback), truncate the text to 1000 characters, call generateSpeech. -/
def generateAgentSpeech (env : TTSEnv) (agentRole : String) (text : String) : Option String :=
  let voiceConfig :=
    (AGENT_VOICES agentRole).getD
      { voiceId := "male-qn-qingse", emotion := "neutral", speedPct := 95 }
  generateSpeech env (truncateTextForTTS text 1000) voiceConfig

/- ------------------------------------------------------------------ -/
/- src/server/routes.ts : constants and helpers                        -/
/- ------------------------------------------------------------------ -/

/-- The three MOCK_BRAVE_SEARCH results of getMockResearchData. -/
def mockTopResult : SearchResult :=
  { title := "Best Practices for Modern Authentication"
    url := "https://auth0.com/docs/best-practices"
    description := "Comprehensive guide covering OAuth 2.0, OpenID Connect, JWT tokens, and secure session management for modern applications." }

/-- The full mock result list of getMockResearchData. -/
def allMockResults : List SearchResult :=
  [ mockTopResult
  , { title := "OAuth 2.0 Implementation Guide - MDN"
      url := "https://developer.mozilla.org/en-US/docs/Web/Security/OAuth"
      description := "Mozilla\u0027s complete walkthrough of implementing OAuth 2.0 authentication flows with code examples and security considerations." }
  , { title := "JWT Authentication Tutorial"
      url := "https://jwt.io/introduction"
      description := "Learn how to implement JSON Web Tokens for stateless authentication in web applications with best practices." } ]

/-- Embedding of getMockResearchData of routes.ts. -/
def getMockResearchData (query : String) : ResearchData :=
  { query := query
    results := [mockTopResult]
    allResults := allMockResults
    totalAvailable := allMockResults.length
    summary := mockTopResult.title ++ "\n" ++ mockTopResult.description ++ "\nSource: " ++ mockTopResult.url }

/-- The AGENT_PROMPTS table of routes.ts (production prompts). -/
def AGENT_PROMPTS_lookup (agentRole : String) : Option String :=
  if agentRole = "architect" then some "You are an elite Architect Agent powered by advanced AI reasoning. Your role is to:\n- Deeply analyze user requirements and envision the complete system architecture\n- Make sophisticated technical decisions leveraging modern best practices, design patterns, and scalability considerations\n- Design elegant component hierarchies with clear separation of concerns and data flow strategies\n- Provide detailed architectural blueprints with specific technology stack recommendations and rationale\n- **CRITICAL: Generate PRODUCTION-READY EXECUTABLE CODE** for configuration files, project structure, core abstractions, and architectural patterns\n- Think through edge cases, performance implications, and future extensibility\n- Focus on code quality, maintainability, and developer experience\n- Include reasoning about trade-offs and why certain architectural choices were made"
  else if agentRole = "backend" then some "You are an elite Backend Agent powered by advanced AI reasoning. Your role is to:\n- Design robust, scalable API architectures based on the architect\u0027s vision\n- Create comprehensive database schemas with normalization, indexing strategies, and relationship modeling\n- Implement sophisticated authentication, authorization, middleware chains, and error handling\n- Define clean data models, business logic layers, and service patterns with dependency injection\n- **CRITICAL: Generate PRODUCTION-READY EXECUTABLE CODE** for API routes, database models, middleware, validation, error handlers, and complete server setup\n- Think through security vulnerabilities, rate limiting, caching strategies, and performance optimization\n- Ensure code follows SOLID principles and includes proper error handling\n- Reference and build upon the architect\u0027s decisions with technical depth"
  else if agentRole = "frontend" then some "You are an elite Frontend Agent powered by advanced AI reasoning. Your role is to:\n- Design intuitive, accessible, and performant user interfaces aligned with the backend APIs\n- Architect component hierarchies with proper state management, memoization, and render optimization\n- Specify modern UI libraries, design systems, and styling approaches with rationale\n- Plan sophisticated user interactions, form validation, loading states, and error boundaries\n- **CRITICAL: Generate PRODUCTION-READY EXECUTABLE CODE** for React/Vue components, custom hooks, state management (Redux/Zustand/Context), API integration with error handling, and responsive styling\n- Think through accessibility (a11y), responsive design, performance metrics, and user experience flows\n- Implement proper TypeScript types, prop validation, and defensive programming\n- Reference backend APIs, architectural patterns, and create cohesive user experiences"
  else if agentRole = "qa" then some "You are an elite QA Agent powered by advanced AI reasoning. Your role is to:\n- Conduct deep analysis to identify bugs, edge cases, race conditions, and security vulnerabilities\n- Design comprehensive test strategies covering unit, integration, e2e, and performance testing\n- Review architectural decisions, backend implementations, and frontend code for correctness and best practices\n- **CRITICAL: Generate PRODUCTION-READY EXECUTABLE TEST CODE** using modern testing frameworks (Jest, Vitest, Playwright, Cypress)\n- Create thorough test suites with meaningful test cases, mocks, fixtures, and assertions\n- Think through security testing (XSS, CSRF, SQL injection), accessibility testing, and performance benchmarks\n- Provide actionable feedback on code quality, potential refactors, and areas of technical debt\n- Reference specific concerns from architect, backend, and frontend implementations with technical precision"
  else none

/-- The DEMO_AGENT_PROMPTS table of routes.ts (demo-mode prompts). -/
def DEMO_AGENT_PROMPTS_lookup (agentRole : String) : Option String :=
  if agentRole = "architect" then some "You are an Architect Agent. Analyze the request and provide:\n- Quick system overview (2-3 sentences)\n- Key technology choices (bullet points)\n- Basic component structure\n- ONE simple code example (max 15 lines)\nKeep response under 300 words. Be concise and actionable."
  else if agentRole = "backend" then some "You are a Backend Agent. Based on the architect\u0027s plan, provide:\n- API endpoints needed (bullet list)\n- Data model (simple schema)\n- ONE code example showing main API route (max 20 lines)\nKeep response under 300 words. Be direct and practical."
  else if agentRole = "frontend" then some "You are a Frontend Agent. Based on backend APIs, provide:\n- UI components needed (bullet list)\n- State management approach (1 sentence)\n- ONE React component example (max 25 lines)\nKeep response under 300 words. Focus on essentials."
  else if agentRole = "qa" then some "You are a QA Agent. Review the implementation and provide:\n- 3-5 key test scenarios (bullet points)\n- ONE simple test code example (max 15 lines)\nKeep response under 200 words. Be concise."
  else none

/-- The four accepted roles, in the insertion order of AGENT_PROMPTS. -/
def validRoles : List String := ["architect", "backend", "frontend", "qa"]

/-- Embedding of estimateTokenCount: Math.ceil(text.length / 4). -/
def estimateTokenCount (text : String) : Nat :=
  (text.length + 3) / 4

/-- Head of the sentence list has whitespace first character? -/
def headIsWhitespace : List Char → Bool
  | [] => false
  | c :: _ => isJsWhitespace c

/-- Is c one of the sentence-terminating characters of the split regex? -/
def isSentenceEnd (c : Char) : Bool :=
  c == '.' || c == '!' || c == '?'

/-- Worker of the embedding of message.split over the regex class
[.!?] followed by one-or-more whitespace: the separator (one sentence-end
character plus the maximal following whitespace run) is consumed, the
pieces between separators are returned.  The first argument is fuel for
structural recursion; every step consumes at least one character, so the
caller's fuel (the full character count) never runs out and the
fuel-exhaustion branch is unreachable. -/
def splitSentencesAux : Nat → List Char → List Char → List String
  | _, acc, [] => [String.mk acc.reverse]
  | 0, acc, l => [String.mk (acc.reverse ++ l)]
  | fuel + 1, acc, c :: rest =>
    if isSentenceEnd c && headIsWhitespace rest then
      String.mk acc.reverse :: splitSentencesAux fuel [] (rest.dropWhile isJsWhitespace)
    else
      splitSentencesAux fuel (c :: acc) rest

/-- Embedding of message.split(regex of sentence boundaries). -/
def splitSentences (message : String) : List String :=
  splitSentencesAux message.data.length [] message.data

/-- The greedy sentence-accumulation loop of summarizeResponse: stop as
soon as adding the next sentence would pass maxLength - 20, otherwise
append the sentence followed by a period and a space. -/
def summarizeLoop (maxLength : Nat) : List String → String → String
  | [], summary => summary
  | s :: rest, summary =>
    if ((summary.length + s.length : Int) > (maxLength : Int) - 20) then summary
    else summarizeLoop maxLength rest (summary ++ s ++ ". ")

/-- The sentence-like units of summarizeResponse: split at punctuation
boundaries, keep only units longer than 20 characters. -/
def summarySentences (message : String) : List String :=
  (splitSentences message).filter (fun s => decide (s.length > 20))

/-- The accumulated summary before trimming. -/
def rawSummary (message : String) (maxLength : Nat) : String :=
  summarizeLoop maxLength (summarySentences message) ""

/-- Embedding of summarizeResponse of routes.ts: the message unchanged
when short enough, else the trimmed greedy summary, else (when that is
empty, JavaScript falsiness of the empty string) a hard cut of the first
maxLength characters with an ellipsis marker. -/
def summarizeResponse (message : String) (maxLength : Nat) : String :=
  if message.length ≤ maxLength then message
  else if jsTrim (rawSummary message maxLength) = "" then
    jsSubstringTo message maxLength ++ "..."
  else jsTrim (rawSummary message maxLength)

/- ------------------------------------------------------------------ -/
/- src/server/routes.ts : the POST /api/agents/discuss handler        -/
/- ------------------------------------------------------------------ -/

/-- One entry of the context array threaded between agents (also the
shape of the persisted agentResponses entries): a free-text role label
and the full prior message. -/
structure AgentResponseEntry where
  role : String
  message : String
deriving DecidableEq

/-- A persisted command as the history lookup returns it.  timestampStr
holds the rendering new Date(timestamp).toLocaleString() used in the
prompt, modelled as an opaque string. -/
structure Command where
  transcript : String
  timestampStr : String
  agentResponses : List AgentResponseEntry
deriving DecidableEq

/-- Outcome of the history lookup: Atlas Search succeeded, Atlas Search
failed and the recency fallback succeeded, or both failed (in which case
the source continues with an empty history; this stage never aborts). -/
inductive HistoryOutcome where
  | searchOk (cmds : List Command)
  | fallbackOk (cmds : List Command)
  | bothFail
deriving DecidableEq

/-- The command history the handler ends up with. -/
def historyCommands : HistoryOutcome → List Command
  | HistoryOutcome.searchOk cmds => cmds
  | HistoryOutcome.fallbackOk cmds => cmds
  | HistoryOutcome.bothFail => []

/-- The Gemini generateContent response: extracted text (absent models a
missing/empty candidates payload) and the finish reason of the first
candidate. -/
structure ModelResponse where
  text : Option String
  finishReason : Option String
deriving DecidableEq

/-- Environment of one request: the MOCK_BRAVE_SEARCH flag, the Brave
key configuration, and the oracles for the search, history, model and
speech calls. -/
structure Env where
  mockBraveSearch : Bool
  braveApiKeyConfigured : Bool
  searchOutcome : SearchOutcome
  historyOutcome : HistoryOutcome
  modelOutcome : Except String ModelResponse
  ttsEnv : TTSEnv

/-- The parsed request body of POST /api/agents/discuss.  A missing
transcript or agentRole is modelled as the empty string (the source
treats undefined and the empty string identically through falsiness);
context defaults to the empty list, demoMode to false, previousResearch
to none. -/
structure DiscussRequest where
  transcript : String
  agentRole : String
  context : List AgentResponseEntry
  demoMode : Bool
  previousResearch : Option ResearchData
deriving DecidableEq

/-- The tokenInfo object of the success response. -/
structure TokenInfo where
  promptTokens : Nat
  allocatedOutputTokens : Int
  finishReason : Option String
deriving DecidableEq

/-- The JSON body of a 200 response.  none in warning, truncated,
researchData or tokenInfo means the field is absent from (or null in)
the serialized body; the research short-circuit body carries neither a
truncated flag nor a tokenInfo object. -/
structure OkBody where
  message : String
  warning : Option String
  truncated : Option Bool
  researchData : Option ResearchData
  audioData : Option String
  tokenInfo : Option TokenInfo
deriving DecidableEq

/-- The handler result: 400 with an error string, 500 with error and
details, or 200 with a body. -/
inductive HandlerResult where
  | badRequest (error : String)
  | serverError (error : String) (details : String)
  | ok (body : OkBody)
deriving DecidableEq

/-- Which external calls the handler performed: the history lookup, the
Brave webSearch call, the Gemini call (recorded with the exact prompt it
was given), and the speech synthesis call. -/
structure Effects where
  historyLookup : Bool
  searchCalled : Bool
  modelPrompt : Option String
  ttsCalled : Bool
deriving DecidableEq

/-- No external call at all (the validation early returns). -/
def noEffects : Effects :=
  { historyLookup := false, searchCalled := false, modelPrompt := none, ttsCalled := false }

/-- The 400 message for a missing transcript or agentRole. -/
def missingFieldsMessage : String :=
  "Missing required fields: transcript and agentRole"

/-- The 400 message for an unknown agentRole (the joined key list of
AGENT_PROMPTS). -/
def invalidRoleMessage : String :=
  "Invalid agentRole. Must be one of: architect, backend, frontend, qa"

/-- The substitute text when the model response carries no text. -/
def apologyMessage : String :=
  "I apologize, but I couldn\u0027t generate a response."

/-- The research gate of the handler (architect only, no previous
research, research keywords present).  Returns the research data
produced (none on failure or when the gate is closed) and whether the
Brave webSearch call was issued (the mock path issues none; the real
path reaches client.webSearch exactly when the API key is configured). -/
def researchGate (env : Env) (req : DiscussRequest) : Option ResearchData × Bool :=
  if req.agentRole == "architect" && req.previousResearch.isNone
      && shouldPerformResearch req.transcript then
    if env.mockBraveSearch then (some (getMockResearchData req.transcript), false)
    else (performResearch env.braveApiKeyConfigured req.transcript env.searchOutcome,
          env.braveApiKeyConfigured)
  else (none, false)

/-- The command-history block of the prompt, one numbered line per
command (at most 3) with a 150-character summary of its last response. -/
def renderHistory : Nat → List Command → String
  | _, [] => ""
  | idx, cmd :: rest =>
    (toString (idx + 1) ++ ". \"" ++ cmd.transcript ++ "\" (" ++ cmd.timestampStr ++ ")\n"
      ++ (match cmd.agentResponses.getLast? with
          | some lastResponse =>
            "   Last response: " ++ summarizeResponse lastResponse.message 150 ++ "\n"
          | none => ""))
      ++ renderHistory (idx + 1) rest

/-- The full history section of the prompt (empty when no history). -/
def historyBlock (commandHistory : List Command) : String :=
  if commandHistory.isEmpty then ""
  else
    "📝 RELEVANT COMMAND HISTORY (found via search):\n"
      ++ renderHistory 0 (commandHistory.take 3)
      ++ "\nThese are similar commands from the past. Use this context to understand the user\u0027s ongoing work and maintain continuity.\n\n"

/-- activeResearch = researchData || previousResearch. -/
def activeResearchOf (researchData previousResearch : Option ResearchData) : Option ResearchData :=
  match researchData with
  | some rd => some rd
  | none => previousResearch

/-- The research-findings section of the prompt. -/
def researchBlock : Option ResearchData → Option ResearchData → String
  | none, _ => ""
  | some ar, previousResearch =>
    "🔍 RESEARCH FINDINGS (Brave Search):\n" ++ ar.summary ++ "\n\n"
      ++ (if previousResearch.isSome then
            "The user has reviewed these research findings and is now asking you to implement based on this information.\n"
          else "")
      ++ "Use these research findings to inform your decisions and recommendations.\n\n"

/-- The prior-agent-summaries lines of the prompt, one per context entry
with a 250-character summary. -/
def renderContext : List AgentResponseEntry → String
  | [] => ""
  | item :: rest =>
    "- " ++ item.role ++ ": " ++ summarizeResponse item.message 250 ++ "\n" ++ renderContext rest

/-- The prior-agent-summaries section of the prompt. -/
def contextBlock (context : List AgentResponseEntry) : String :=
  if context.isEmpty then ""
  else "Previous agent summaries:\n" ++ renderContext context ++ "\n"

/-- The user-facing part of the prompt: raw transcript, history block,
research block, context block, in the order of the source. -/
def userPromptOf (req : DiscussRequest) (commandHistory : List Command)
    (researchData : Option ResearchData) : String :=
  "User request: \"" ++ req.transcript ++ "\"\n\n"
    ++ historyBlock commandHistory
    ++ researchBlock (activeResearchOf researchData req.previousResearch) req.previousResearch
    ++ contextBlock req.context

/-- promptMap[agentRole]: the demo or production system prompt.  The
lookup cannot miss at its use site (the role was validated), so the
default is never selected. -/
def systemPromptFor (demoMode : Bool) (agentRole : String) : String :=
  ((if demoMode then DEMO_AGENT_PROMPTS_lookup else AGENT_PROMPTS_lookup) agentRole).getD ""

/-- The full prompt handed to the model. -/
def assemblePrompt (req : DiscussRequest) (commandHistory : List Command)
    (researchData : Option ResearchData) : String :=
  systemPromptFor req.demoMode req.agentRole ++ "\n\n"
    ++ userPromptOf req commandHistory researchData
    ++ "\n\nAs the " ++ req.agentRole ++ " agent, provide your "
    ++ (if req.demoMode then "concise" else "detailed")
    ++ " analysis and recommendations."

/-- The prompt the model phase uses: by the time the source builds the
prompt, the local researchData is always null (a non-null value returned
early), so only previousResearch can contribute a research block. -/
def fullPromptOf (env : Env) (req : DiscussRequest) : String :=
  assemblePrompt req (historyCommands env.historyOutcome) none

/-- Embedding of the safeOutputTokens computation of routes.ts, line for
line: min(maxOutputTokens, max(demo ? 1500 : 2000, maxOutputTokens -
min(promptTokens, 10000))). -/
def safeOutputTokens (demoMode : Bool) (promptTokens : Nat) : Int :=
  let maxOutputTokens : Int := if demoMode then 1500 else 8192
  min maxOutputTokens
    (max (if demoMode then (1500 : Int) else 2000)
      (maxOutputTokens - min (promptTokens : Int) 10000))

/-- The truncation warning attached when finishReason is MAX_TOKENS. -/
def truncationWarning (agentRole : String) : String :=
  "The " ++ agentRole ++ " agent\u0027s response was truncated due to output length limits. The analysis may be incomplete. Consider simplifying your request."

/-- The production-mode large-prompt warning. -/
def complexityWarningPro (promptTokens : Nat) : String :=
  "Your request is extremely complex (" ++ toString (promptTokens / 1000) ++ "K tokens). With Gemini 3 Pro\u0027s 1M context window, this should work, but consider breaking into smaller requests if issues occur."

/-- The demo-mode large-prompt warning. -/
def complexityWarningDemo : String :=
  "Your request is complex. Demo mode uses a faster model with smaller context. Switch to Production mode for better handling of complex requests."

/-- The warning chain of routes.ts: a truncation warning first, else the
production complexity warning above 100000 estimated prompt tokens, else
the demo complexity warning above 0.7 times the 8192-token demo context
(promptTokens > 8192 * 0.7 is expressed over integers as
10 * promptTokens > 57344). -/
def computeWarning (demoMode : Bool) (agentRole : String) (promptTokens : Nat)
    (wasTruncated : Bool) : Option String :=
  if wasTruncated then some (truncationWarning agentRole)
  else if !demoMode && decide (promptTokens > 100000) then
    some (complexityWarningPro promptTokens)
  else if demoMode && decide (10 * promptTokens > 57344) then
    some complexityWarningDemo
  else none

/-- response.text || apology. -/
def messageOf (resp : ModelResponse) : String :=
  jsOrString resp.text apologyMessage

/-- finishReason === MAX_TOKENS. -/
def wasTruncatedOf (resp : ModelResponse) : Bool :=
  resp.finishReason == some "MAX_TOKENS"

/-- The message of the research short-circuit response. -/
def researchCompleteMessage (transcript : String) (rd : ResearchData) : String :=
  "📚 Research Complete!\n\nI found " ++ toString rd.results.length
    ++ " relevant sources for: \"" ++ transcript ++ "\"\n\nTop Result:\n"
    ++ (rd.results.headD { title := "", url := "", description := "" }).title ++ "\n"
    ++ (rd.results.headD { title := "", url := "", description := "" }).description
    ++ "\n\nTo implement this request, enable \"Apply Research\" and send another message."

/-- The body of the research short-circuit response: only message,
researchData and an explicit null audioData are serialized; no warning,
no truncated flag, no tokenInfo. -/
def shortCircuitBody (transcript : String) (rd : ResearchData) : OkBody :=
  { message := researchCompleteMessage transcript rd
    warning := none
    truncated := none
    researchData := some rd
    audioData := none
    tokenInfo := none }

/-- Effects of the short-circuit path: history was looked up, the model
and the speech synthesizer were not reached. -/
def shortCircuitEffects (searchCalled : Bool) : Effects :=
  { historyLookup := true, searchCalled := searchCalled, modelPrompt := none, ttsCalled := false }

/-- The 200 body of the full model path.  researchData is always null
here (a non-null value short-circuited earlier); audioData is whatever
the speech side-call produced, or null on any speech failure. -/
def successBody (env : Env) (req : DiscussRequest) (resp : ModelResponse) : OkBody :=
  { message := jsTrim (messageOf resp)
    warning := computeWarning req.demoMode req.agentRole
      (estimateTokenCount (fullPromptOf env req)) (wasTruncatedOf resp)
    truncated := some (wasTruncatedOf resp)
    researchData := none
    audioData := generateAgentSpeech env.ttsEnv req.agentRole (messageOf resp)
    tokenInfo := some { promptTokens := estimateTokenCount (fullPromptOf env req)
                        allocatedOutputTokens := safeOutputTokens req.demoMode
                          (estimateTokenCount (fullPromptOf env req))
                        finishReason := resp.finishReason } }

/-- The prompt-building, model-invocation and response-shaping phase of
the handler (everything after the research gate).  A model failure is
fatal (500 with provider detail); a speech failure is absorbed inside
successBody. -/
def modelPhase (env : Env) (req : DiscussRequest) (searchCalled : Bool) :
    HandlerResult × Effects :=
  match env.modelOutcome with
  | Except.error details =>
    (HandlerResult.serverError "Failed to generate agent response" details,
     { historyLookup := true, searchCalled := searchCalled,
       modelPrompt := some (fullPromptOf env req), ttsCalled := false })
  | Except.ok resp =>
    (HandlerResult.ok (successBody env req resp),
     { historyLookup := true, searchCalled := searchCalled,
       modelPrompt := some (fullPromptOf env req), ttsCalled := true })

/-- Embedding of the POST /api/agents/discuss handler of routes.ts:
validation, history lookup, research gate with short-circuit, then the
model phase. -/
def discussHandler (env : Env) (req : DiscussRequest) : HandlerResult × Effects :=
  if req.transcript = "" || req.agentRole = "" then
    (HandlerResult.badRequest missingFieldsMessage, noEffects)
  else if (AGENT_PROMPTS_lookup req.agentRole).isNone then
    (HandlerResult.badRequest invalidRoleMessage, noEffects)
  else
    match researchGate env req with
    | (some rd, searchCalled) =>
      (HandlerResult.ok (shortCircuitBody req.transcript rd), shortCircuitEffects searchCalled)
    | (none, searchCalled) => modelPhase env req searchCalled

/- ------------------------------------------------------------------ -/
/- Client pipeline driver (CodeDisplay.tsx, handleTranscript)         -/
/- ------------------------------------------------------------------ -/

/-- The dispatch schedule of handleTranscript as a list of batches of
requests: the requests of one batch are issued concurrently (a single
Promise.all), and a batch is issued only after every request of the
previous batch has resolved.  The architect runs alone in the first
batch; if it returned research data and the user had not enabled Apply
Research, the turn stops there; otherwise backend, frontend and qa are
all issued together in the second batch, each with a context holding
only the architect entry. -/
def handleTranscriptBatches (text : String) (demoMode : Bool)
    (applyResearchToNext : Bool) (storedResearch : Option ResearchData)
    (architectData : OkBody) : List (List DiscussRequest) :=
  let isFollowUpImplementation := applyResearchToNext && storedResearch.isSome
  let previousResearch := if isFollowUpImplementation then storedResearch else none
  let batch1 : List DiscussRequest :=
    [{ transcript := text, agentRole := "architect", context := [],
       demoMode := demoMode, previousResearch := previousResearch }]
  let context1 : List AgentResponseEntry :=
    [{ role := "Architect", message := architectData.message }]
  if architectData.researchData.isSome && !isFollowUpImplementation then
    [batch1]
  else
    [batch1,
     [ { transcript := text, agentRole := "backend", context := context1,
         demoMode := demoMode, previousResearch := previousResearch }
     , { transcript := text, agentRole := "frontend", context := context1,
         demoMode := demoMode, previousResearch := previousResearch }
     , { transcript := text, agentRole := "qa", context := context1,
         demoMode := demoMode, previousResearch := previousResearch } ]]

/-- The ordering property the specification claims for the driver: any
qa request is issued in a strictly later batch than some backend request
and some frontend request (it waits for both), and its context carries
the three prior entries. -/
def qaAfterBackendFrontend (batches : List (List DiscussRequest)) : Prop :=
  ∀ i req, i < batches.length → req ∈ batches.getD i [] → req.agentRole = "qa" →
    ((∃ j, j < i ∧ ∃ r, r ∈ batches.getD j [] ∧ r.agentRole = "backend") ∧
     (∃ j, j < i ∧ ∃ r, r ∈ batches.getD j [] ∧ r.agentRole = "frontend") ∧
     req.context.length = 3)

/-- Does the decoded Minimax response itself constitute a failure: an
error status in base_resp, or no truthy audio payload in any of the
three accepted locations? -/
def minimaxRespFails (data : MinimaxResp) : Bool :=
  baseRespError data
    || !(jsTruthy data.dataAudio || jsTruthy data.audio || jsTruthy data.extraInfoAudioFile)

/-- Every way the speech-synthesis step can fail: missing API key,
missing group id, a thrown fetch, a non-OK HTTP status, or a decoded
response that is malformed (error status or missing audio payload). -/
def ttsFails (t : TTSEnv) : Bool :=
  !t.apiKeyConfigured || !t.groupIdConfigured
    || (match t.fetchOutcome with
        | FetchOutcome.throws _ => true
        | FetchOutcome.httpError _ _ => true
        | FetchOutcome.ok data => minimaxRespFails data)

/- Concrete fixtures used by the per-claim witnesses and
counterexamples below. -/

/-- A text-to-speech environment with no credentials configured. -/
def ttsEnvOff : TTSEnv :=
  { apiKeyConfigured := false, groupIdConfigured := false,
    fetchOutcome := FetchOutcome.throws "unreached" }

/-- C1 fixture: two raw Brave results. -/
def c1Raws : List RawSearchResult :=
  [ { title := some "Result A", url := some "https://a.example", description := some "Alpha" }
  , { title := some "Result B", url := some "https://b.example", description := some "Beta" } ]

/-- C1 fixture: real-search environment whose Brave call succeeds. -/
def c1Env : Env :=
  { mockBraveSearch := false, braveApiKeyConfigured := true,
    searchOutcome := SearchOutcome.ok c1Raws, historyOutcome := HistoryOutcome.bothFail,
    modelOutcome := Except.error "unreached", ttsEnv := ttsEnvOff }

/-- C1 fixture: an architect request whose transcript matches the
research pattern list. -/
def c1Req : DiscussRequest :=
  { transcript := "research", agentRole := "architect", context := [],
    demoMode := false, previousResearch := none }

/-- C2 fixture: an architect response without research data. -/
def c2ArchitectBody : OkBody :=
  { message := "Plan.", warning := none, truncated := some false,
    researchData := none, audioData := none,
    tokenInfo := some { promptTokens := 10, allocatedOutputTokens := 8192,
                        finishReason := some "STOP" } }

/-- C2 fixture: the qa request the driver issues in its second batch. -/
def c2QaReq : DiscussRequest :=
  { transcript := "Build a todo list app", agentRole := "qa",
    context := [{ role := "Architect", message := "Plan." }],
    demoMode := false, previousResearch := none }

/-- C3 fixture: environment with MOCK_BRAVE_SEARCH enabled, so the
research gate short-circuits deterministically. -/
def c3Env : Env :=
  { mockBraveSearch := true, braveApiKeyConfigured := false,
    searchOutcome := SearchOutcome.throws, historyOutcome := HistoryOutcome.bothFail,
    modelOutcome := Except.error "unreached", ttsEnv := ttsEnvOff }

/-- C3 fixture: an architect request that triggers the research gate. -/
def c3Req : DiscussRequest :=
  { transcript := "research", agentRole := "architect", context := [],
    demoMode := false, previousResearch := none }

/-- C5 fixture environment (its oracles are never reached). -/
def c5Env : Env :=
  { mockBraveSearch := false, braveApiKeyConfigured := true,
    searchOutcome := SearchOutcome.throws, historyOutcome := HistoryOutcome.bothFail,
    modelOutcome := Except.error "unreached", ttsEnv := ttsEnvOff }

/-- C5 fixture: a request with a transcript but a missing agentRole. -/
def c5ReqMissing : DiscussRequest :=
  { transcript := "Build a todo list app", agentRole := "", context := [],
    demoMode := false, previousResearch := none }

/-- C5 fixture: a request with an unrecognized agentRole. -/
def c5ReqUnknown : DiscussRequest :=
  { transcript := "Build a todo list app", agentRole := "manager", context := [],
    demoMode := false, previousResearch := none }

/-- C6 fixture: a previously produced research payload. -/
def c6Prev : ResearchData :=
  { query := "research"
    results := [{ title := "Result A", url := "https://a.example", description := "Alpha" }]
    allResults := [{ title := "Result A", url := "https://a.example", description := "Alpha" }]
    totalAvailable := 1
    summary := "Result A
Alpha
Source: https://a.example" }

/-- C6 fixture: environment whose model call succeeds. -/
def c6Env : Env :=
  { mockBraveSearch := false, braveApiKeyConfigured := true,
    searchOutcome := SearchOutcome.ok c1Raws, historyOutcome := HistoryOutcome.bothFail,
    modelOutcome := Except.ok { text := some "Done.", finishReason := some "STOP" },
    ttsEnv := ttsEnvOff }

/-- C6 fixture: an architect request whose transcript matches the
research patterns but which carries previous research. -/
def c6Req : DiscussRequest :=
  { transcript := "research", agentRole := "architect", context := [],
    demoMode := true, previousResearch := some c6Prev }

/-- C7 fixture: environment whose model call reports MAX_TOKENS. -/
def c7Env : Env :=
  { mockBraveSearch := false, braveApiKeyConfigured := false,
    searchOutcome := SearchOutcome.throws, historyOutcome := HistoryOutcome.bothFail,
    modelOutcome := Except.ok { text := some "Hello there.", finishReason := some "MAX_TOKENS" },
    ttsEnv := ttsEnvOff }

/-- C7 fixture: a demo-mode backend request. -/
def c7Req : DiscussRequest :=
  { transcript := "hello", agentRole := "backend", context := [],
    demoMode := true, previousResearch := none }

/-- C7 fixture: the model response of c7Env. -/
def c7Resp : ModelResponse :=
  { text := some "Hello there.", finishReason := some "MAX_TOKENS" }

/-- C7 fixture: the 200 body the handler produces on c7Env and c7Req. -/
def c7Body : OkBody :=
  match (discussHandler c7Env c7Req).1 with
  | HandlerResult.ok body => body
  | _ => { message := "", warning := none, truncated := none,
           researchData := none, audioData := none, tokenInfo := none }

/-- C9 fixture: the model succeeds, the speech fetch returns a 200 whose
decoded body carries no audio payload in any accepted location. -/
def c9Env : Env :=
  { mockBraveSearch := false, braveApiKeyConfigured := false,
    searchOutcome := SearchOutcome.throws, historyOutcome := HistoryOutcome.bothFail,
    modelOutcome := Except.ok { text := some "Hello there.", finishReason := some "STOP" },
    ttsEnv := { apiKeyConfigured := true, groupIdConfigured := true,
                fetchOutcome := FetchOutcome.ok
                  { baseResp := some (some 0), dataAudio := some "",
                    audio := none, extraInfoAudioFile := none } } }

/-- C9 fixture: a demo-mode qa request. -/
def c9Req : DiscussRequest :=
  { transcript := "hello", agentRole := "qa", context := [],
    demoMode := true, previousResearch := none }

/-- C9 fixture: the model response of c9Env. -/
def c9Resp : ModelResponse :=
  { text := some "Hello there.", finishReason := some "STOP" }

/- ------------------------------------------------------------------ -/
/- Shared lemmas                                                      -/
/- ------------------------------------------------------------------ -/

set_option maxRecDepth 40000

theorem strContains_appendL (a b pat : String) (h : strContains a pat) :
    strContains (a ++ b) pat := by
  unfold strContains at h ⊢
  rw [String.data_append]
  exact h.trans (List.prefix_append a.data b.data).isInfix

theorem strContains_appendR (a b pat : String) (h : strContains b pat) :
    strContains (a ++ b) pat := by
  unfold strContains at h ⊢
  rw [String.data_append]
  exact h.trans (List.suffix_append a.data b.data).isInfix

theorem strContains_refl (s : String) : strContains s s := by
  unfold strContains
  exact List.infix_rfl

theorem strContains_middle (a s b : String) : strContains (a ++ s ++ b) s :=
  strContains_appendL (a ++ s) b s (strContains_appendR a s s (strContains_refl s))

theorem summarizeLoop_length_le (maxLength : Nat) :
    ∀ (l : List String) (summary : String),
      (summary.length : Int) ≤ max 0 ((maxLength : Int) - 18) →
      ((summarizeLoop maxLength l summary).length : Int) ≤ max 0 ((maxLength : Int) - 18)
  | [], summary, h => by simpa [summarizeLoop] using h
  | s :: rest, summary, h => by
    simp only [summarizeLoop]
    split_ifs with hc
    · exact h
    · apply summarizeLoop_length_le maxLength rest
      have hlen : (summary ++ s ++ ". ").length = summary.length + s.length + 2 := by
        rw [String.length_append, String.length_append]
        rfl
      push_neg at hc
      rw [hlen]
      push_cast
      omega

theorem jsTrim_length_le (s : String) : (jsTrim s).length ≤ s.length := by
  show (((s.data.dropWhile isJsWhitespace).reverse.dropWhile isJsWhitespace).reverse).length
      ≤ s.data.length
  rw [List.length_reverse]
  calc ((s.data.dropWhile isJsWhitespace).reverse.dropWhile isJsWhitespace).length
      ≤ (s.data.dropWhile isJsWhitespace).reverse.length :=
        (List.dropWhile_sublist _).length_le
    _ = (s.data.dropWhile isJsWhitespace).length := List.length_reverse _
    _ ≤ s.data.length := (List.dropWhile_sublist _).length_le

theorem jsSubstringTo_length_le (s : String) (n : Nat) : (jsSubstringTo s n).length ≤ n := by
  show (s.data.take n).length ≤ n
  rw [List.length_take]
  omega

theorem rawSummary_length_le (m : String) (maxLength : Nat) :
    (rawSummary m maxLength).length ≤ maxLength := by
  have h := summarizeLoop_length_le maxLength (summarySentences m) ""
    (by have h0 : (("" : String).length) = 0 := rfl
        rw [h0]; omega)
  have h2 : ((rawSummary m maxLength).length : Int) ≤ (maxLength : Int) := by
    unfold rawSummary
    omega
  exact_mod_cast h2

theorem summarizeResponse_eq_of_le (m : String) (maxLength : Nat)
    (h : m.length ≤ maxLength) : summarizeResponse m maxLength = m := by
  unfold summarizeResponse
  rw [if_pos h]

theorem summarizeResponse_length_le (m : String) (maxLength : Nat) :
    (summarizeResponse m maxLength).length ≤ maxLength + 3 := by
  unfold summarizeResponse
  split_ifs with h1 h2
  · omega
  · rw [String.length_append]
    have h3 := jsSubstringTo_length_le m maxLength
    have h4 : (("..." : String).length) = 3 := rfl
    omega
  · have h5 := jsTrim_length_le (rawSummary m maxLength)
    have h6 := rawSummary_length_le m maxLength
    omega

theorem summarizeResponse_ne_empty (m : String) (maxLength : Nat)
    (hm : m ≠ "") : summarizeResponse m maxLength ≠ "" := by
  unfold summarizeResponse
  split_ifs with h1 h2
  · exact hm
  · intro he
    have hl := congrArg String.length he
    rw [String.length_append] at hl
    have h4 : (("..." : String).length) = 3 := rfl
    have h0 : (("" : String).length) = 0 := rfl
    omega
  · exact h2

/- ------------------------------------------------------------------ -/
/- Claim theorems                                                     -/
/- ------------------------------------------------------------------ -/

/-- C4: summarizeResponse returns the message unchanged when its length
is at most maxLength; in every case the result length is at most
maxLength plus the 3-character ellipsis marker, and the result is
non-empty whenever the input message is non-empty. -/
theorem summarizeResponse_spec (m : String) (maxLength : Nat) :
    (m.length ≤ maxLength → summarizeResponse m maxLength = m) ∧
    (summarizeResponse m maxLength).length ≤ maxLength + 3 ∧
    (m ≠ "" → summarizeResponse m maxLength ≠ "") :=
  ⟨summarizeResponse_eq_of_le m maxLength,
   summarizeResponse_length_le m maxLength,
   summarizeResponse_ne_empty m maxLength⟩

/-- Witness for C4: the guarantees instantiated at concrete inputs. -/
theorem summarizeResponse_spec_witness :
    summarizeResponse "hello" 300 = "hello" ∧
    (summarizeResponse "hello" 300).length ≤ 303 ∧
    summarizeResponse "hello" 300 ≠ "" := by
  have h := summarizeResponse_spec "hello" 300
  exact ⟨h.1 (by decide), h.2.1, h.2.2 (by decide)⟩

/-- C8: for every mode and estimated prompt-token count, the computed
output-token allocation lies between the per-mode floor (1500 in demo
mode, 2000 in production) and the per-mode ceiling (1500 in demo mode,
8192 in production); it never falls below the floor however large the
prompt estimate grows. -/
theorem safeOutputTokens_bounds (demoMode : Bool) (promptTokens : Nat) :
    (if demoMode then (1500 : Int) else 2000) ≤ safeOutputTokens demoMode promptTokens ∧
    safeOutputTokens demoMode promptTokens ≤ (if demoMode then (1500 : Int) else 8192) := by
  unfold safeOutputTokens
  cases demoMode
  · simp only [Bool.false_eq_true, if_false]
    omega
  · simp only [if_true]
    omega

/-- C10: in demo mode the output-token allocation is exactly 1500 for
every prompt size: ceiling and floor coincide at 1500, so the
proportional reduction never takes effect. -/
theorem safeOutputTokens_demo_const (promptTokens : Nat) :
    safeOutputTokens true promptTokens = 1500 := by
  unfold safeOutputTokens
  simp only [if_true]
  omega

theorem shouldPerformResearch_empty : shouldPerformResearch "" = false := by decide

theorem transcript_ne_empty_of_should (t : String)
    (h : shouldPerformResearch t = true) : t ≠ "" := by
  intro he
  subst he
  rw [shouldPerformResearch_empty] at h
  cases h

theorem agentRole_ne_empty (role : String)
    (h : (AGENT_PROMPTS_lookup role).isNone = false) : role ≠ "" := by
  intro he
  subst he
  exact absurd h (by decide)

theorem lookup_isNone_false_of_mem (role : String) (h : role ∈ validRoles) :
    (AGENT_PROMPTS_lookup role).isNone = false := by
  fin_cases h <;> rfl

theorem lookup_none_of_not_mem (role : String) (h : role ∉ validRoles) :
    (AGENT_PROMPTS_lookup role).isNone = true := by
  unfold AGENT_PROMPTS_lookup
  split_ifs with h1 h2 h3 h4 <;> simp_all [validRoles]

theorem performResearch_ok (query : String) (raws : List RawSearchResult)
    (hne : raws ≠ []) :
    ∃ rd, performResearch true query (SearchOutcome.ok raws) = some rd ∧
      rd.results.length = 1 ∧ rd.totalAvailable = min 5 raws.length := by
  obtain ⟨a, l, rfl⟩ := List.exists_cons_of_ne_nil hne
  refine ⟨_, rfl, rfl, ?_⟩
  simp [List.length_take]
  omega

theorem discussHandler_eq_short (env : Env) (req : DiscussRequest)
    (rd : ResearchData) (sc : Bool)
    (ht : req.transcript ≠ "")
    (hrole : (AGENT_PROMPTS_lookup req.agentRole).isNone = false)
    (hgate : researchGate env req = (some rd, sc)) :
    discussHandler env req =
      (HandlerResult.ok (shortCircuitBody req.transcript rd), shortCircuitEffects sc) := by
  unfold discussHandler
  split_ifs with h1 h2
  · simp only [Bool.or_eq_true, decide_eq_true_eq] at h1
    rcases h1 with h1 | h1
    · exact absurd h1 ht
    · exact absurd h1 (agentRole_ne_empty req.agentRole hrole)
  · rw [hrole] at h2; cases h2
  · rw [hgate]

theorem discussHandler_eq_modelPhase (env : Env) (req : DiscussRequest) (sc : Bool)
    (ht : req.transcript ≠ "")
    (hrole : (AGENT_PROMPTS_lookup req.agentRole).isNone = false)
    (hgate : researchGate env req = (none, sc)) :
    discussHandler env req = modelPhase env req sc := by
  unfold discussHandler
  split_ifs with h1 h2
  · simp only [Bool.or_eq_true, decide_eq_true_eq] at h1
    rcases h1 with h1 | h1
    · exact absurd h1 ht
    · exact absurd h1 (agentRole_ne_empty req.agentRole hrole)
  · rw [hrole] at h2; cases h2
  · rw [hgate]

theorem discussHandler_modelPrompt_cases (env : Env) (req : DiscussRequest) :
    (discussHandler env req).2.modelPrompt = none ∨
    discussHandler env req = modelPhase env req (researchGate env req).2 := by
  unfold discussHandler
  split_ifs with h1 h2
  · left; rfl
  · left; rfl
  · rcases hg : researchGate env req with ⟨g1, g2⟩
    cases g1
    · right; rfl
    · left; rfl

theorem modelPhase_searchCalled (env : Env) (req : DiscussRequest) (sc : Bool) :
    (modelPhase env req sc).2.searchCalled = sc := by
  unfold modelPhase
  rcases env.modelOutcome with d | resp <;> rfl

theorem modelPhase_modelPrompt (env : Env) (req : DiscussRequest) (sc : Bool) :
    (modelPhase env req sc).2.modelPrompt = some (fullPromptOf env req) := by
  unfold modelPhase
  rcases env.modelOutcome with d | resp <;> rfl

theorem modelPhase_ok (env : Env) (req : DiscussRequest) (resp : ModelResponse)
    (h : env.modelOutcome = Except.ok resp) (sc : Bool) :
    (modelPhase env req sc).1 = HandlerResult.ok (successBody env req resp) := by
  unfold modelPhase
  rw [h]

theorem truncationWarning_ne_empty (agentRole : String) :
    truncationWarning agentRole ≠ "" := by
  intro h
  have hl := congrArg String.length h
  unfold truncationWarning at hl
  rw [String.length_append, String.length_append] at hl
  have h4 : (("The " : String).length) = 4 := rfl
  have h0 : (("" : String).length) = 0 := rfl
  omega

theorem generateSpeech_none_of_fails (t : TTSEnv) (h : ttsFails t = true)
    (text : String) (vc : VoiceConfig) : generateSpeech t text vc = none := by
  unfold generateSpeech
  unfold ttsFails at h
  rcases t with ⟨ak, gk, fo⟩
  cases ak
  · rfl
  · cases gk
    · rfl
    · cases fo with
      | throws m => rfl
      | httpError st b => rfl
      | ok data =>
        have hm : minimaxRespFails data = true := by
          simpa using h
        show (if baseRespError data = true then none
              else match pickAudioHex data with
                   | some hex => some hex
                   | none => (none : Option String)) = none
        by_cases hbe : baseRespError data = true
        · rw [if_pos hbe]
        · rw [if_neg hbe]
          unfold minimaxRespFails at hm
          have hbf : baseRespError data = false := by
            revert hbe; cases baseRespError data <;> simp
          rw [hbf, Bool.false_or] at hm
          have hJ : (jsTruthy data.dataAudio || jsTruthy data.audio
              || jsTruthy data.extraInfoAudioFile) = false := by
            revert hm
            cases (jsTruthy data.dataAudio || jsTruthy data.audio
              || jsTruthy data.extraInfoAudioFile) <;> simp
          have h1 : jsTruthy data.dataAudio = false := by
            revert hJ; cases jsTruthy data.dataAudio <;> simp
          have h2 : jsTruthy data.audio = false := by
            revert hJ; cases jsTruthy data.audio <;> simp
          have h3 : jsTruthy data.extraInfoAudioFile = false := by
            revert hJ; cases jsTruthy data.extraInfoAudioFile <;> simp
          unfold pickAudioHex
          rw [h1, h2, h3]
          rfl

theorem generateAgentSpeech_none_of_fails (t : TTSEnv) (h : ttsFails t = true)
    (agentRole text : String) : generateAgentSpeech t agentRole text = none := by
  unfold generateAgentSpeech
  exact generateSpeech_none_of_fails t h _ _

theorem fullPrompt_contains_prev_summary (env : Env) (req : DiscussRequest)
    (pr : ResearchData) (hprev : req.previousResearch = some pr) :
    strContains (fullPromptOf env req) pr.summary := by
  unfold fullPromptOf assemblePrompt
  apply strContains_appendL
  apply strContains_appendL
  apply strContains_appendL
  apply strContains_appendL
  apply strContains_appendL
  apply strContains_appendR
  unfold userPromptOf
  rw [hprev]
  simp only [activeResearchOf, researchBlock]
  apply strContains_appendL
  apply strContains_appendR
  apply strContains_appendL
  apply strContains_appendL
  apply strContains_appendL
  apply strContains_appendR
  exact strContains_refl pr.summary

/-- C1: an architect request with no previous research, a transcript
matching the research patterns, and a succeeding web search with at
least one result short-circuits: the 200 body carries researchData with
exactly one displayed result and totalAvailable equal to the number of
fetched results (at most 5), audioData is null, and no model invocation
occurs. -/
theorem research_short_circuit (env : Env) (req : DiscussRequest)
    (raws : List RawSearchResult)
    (hrole : req.agentRole = "architect")
    (hprev : req.previousResearch = none)
    (hshould : shouldPerformResearch req.transcript = true)
    (hmock : env.mockBraveSearch = false)
    (hkey : env.braveApiKeyConfigured = true)
    (hsearch : env.searchOutcome = SearchOutcome.ok raws)
    (hne : raws ≠ []) :
    ∃ rd body, (discussHandler env req).1 = HandlerResult.ok body ∧
      body.researchData = some rd ∧ rd.results.length = 1 ∧
      rd.totalAvailable = min 5 raws.length ∧ rd.totalAvailable ≤ 5 ∧
      body.audioData = none ∧
      (discussHandler env req).2.modelPrompt = none := by
  obtain ⟨rd, hperf, hlen1, htot⟩ := performResearch_ok req.transcript raws hne
  have ht : req.transcript ≠ "" := transcript_ne_empty_of_should _ hshould
  have hgate : researchGate env req = (some rd, true) := by
    unfold researchGate
    rw [hrole, hprev, hshould, hmock, hkey, hsearch]
    simp [hperf]
  have hh := discussHandler_eq_short env req rd true ht
    (by rw [hrole]; rfl) hgate
  refine ⟨rd, shortCircuitBody req.transcript rd, ?_, rfl, hlen1, htot, ?_, rfl, ?_⟩
  · rw [hh]
  · rw [htot]; omega
  · rw [hh]; rfl

/-- Witness for C1 at a concrete environment and request. -/
theorem research_short_circuit_witness :
    ∃ rd body, (discussHandler c1Env c1Req).1 = HandlerResult.ok body ∧
      body.researchData = some rd ∧ rd.results.length = 1 ∧
      rd.totalAvailable = min 5 c1Raws.length ∧ rd.totalAvailable ≤ 5 ∧
      body.audioData = none ∧
      (discussHandler c1Env c1Req).2.modelPrompt = none :=
  research_short_circuit c1Env c1Req c1Raws rfl rfl (by decide) rfl rfl rfl (by decide)

/-- C6: when previousResearch is supplied, no Brave webSearch call is
made — regardless of the value of shouldPerformResearch on the
transcript — and any prompt handed to the model contains the previous
research summary rendered inside the research-findings block. -/
theorem previous_research_no_search (env : Env) (req : DiscussRequest) (pr : ResearchData)
    (hprev : req.previousResearch = some pr)
    (ht : req.transcript ≠ "")
    (hrole : req.agentRole ∈ validRoles) :
    (discussHandler env req).2.searchCalled = false ∧
    ∀ p, (discussHandler env req).2.modelPrompt = some p → strContains p pr.summary := by
  have hgate : researchGate env req = (none, false) := by
    unfold researchGate
    rw [hprev]
    simp
  have hh := discussHandler_eq_modelPhase env req false ht
    (lookup_isNone_false_of_mem req.agentRole hrole) hgate
  constructor
  · rw [hh, modelPhase_searchCalled]
  · intro p hp
    rw [hh, modelPhase_modelPrompt] at hp
    have hpe : fullPromptOf env req = p := by injection hp
    rw [← hpe]
    exact fullPrompt_contains_prev_summary env req pr hprev

/-- Witness for C6 at a concrete environment and request (the transcript
even matches the research patterns, yet no search happens). -/
theorem previous_research_no_search_witness :
    (discussHandler c6Env c6Req).2.searchCalled = false ∧
    strContains ((discussHandler c6Env c6Req).2.modelPrompt.getD "") c6Prev.summary := by
  have h := previous_research_no_search c6Env c6Req c6Prev rfl (by decide) (by decide)
  refine ⟨h.1, h.2 _ ?_⟩
  decide

/-- C7: when the model call reports finishReason MAX_TOKENS, the 200
body has truncated = true and its warning is exactly the (non-empty)
truncation warning, which therefore replaces any complexity warning. -/
theorem truncation_sets_flag (env : Env) (req : DiscussRequest) (resp : ModelResponse)
    (body : OkBody)
    (hmodel : env.modelOutcome = Except.ok resp)
    (hfin : resp.finishReason = some "MAX_TOKENS")
    (hcalled : (discussHandler env req).2.modelPrompt.isSome = true)
    (hok : (discussHandler env req).1 = HandlerResult.ok body) :
    body.truncated = some true ∧
    body.warning = some (truncationWarning req.agentRole) ∧
    truncationWarning req.agentRole ≠ "" := by
  rcases discussHandler_modelPrompt_cases env req with hnone | heq
  · rw [hnone] at hcalled; cases hcalled
  · rw [heq, modelPhase_ok env req resp hmodel] at hok
    have hbody : successBody env req resp = body := by
      injection hok
    subst hbody
    refine ⟨?_, ?_, truncationWarning_ne_empty req.agentRole⟩ <;>
      simp [successBody, computeWarning, wasTruncatedOf, hfin]

/-- Witness for C7 at a concrete environment and request. -/
theorem truncation_sets_flag_witness :
    c7Body.truncated = some true ∧
    c7Body.warning = some (truncationWarning "backend") ∧
    truncationWarning "backend" ≠ "" :=
  truncation_sets_flag c7Env c7Req c7Resp c7Body rfl rfl (by decide) (by decide)

/-- C9: when the model call succeeds and the speech-synthesis step fails
in any way (missing credentials, thrown fetch, non-OK status, malformed
or missing audio payload), the handler still returns 200 with audioData
null and the trimmed model text intact. -/
theorem tts_failure_keeps_turn (env : Env) (req : DiscussRequest) (resp : ModelResponse)
    (hmodel : env.modelOutcome = Except.ok resp)
    (hcalled : (discussHandler env req).2.modelPrompt.isSome = true)
    (hfail : ttsFails env.ttsEnv = true) :
    ∃ body, (discussHandler env req).1 = HandlerResult.ok body ∧
      body.audioData = none ∧
      body.message = jsTrim (messageOf resp) := by
  rcases discussHandler_modelPrompt_cases env req with hnone | heq
  · rw [hnone] at hcalled; cases hcalled
  · refine ⟨successBody env req resp, ?_, ?_, rfl⟩
    · rw [heq, modelPhase_ok env req resp hmodel]
    · show generateAgentSpeech env.ttsEnv req.agentRole (messageOf resp) = none
      exact generateAgentSpeech_none_of_fails env.ttsEnv hfail req.agentRole _

/-- Witness for C9 at a concrete environment (a 200 speech response
whose decoded body carries no truthy audio payload). -/
theorem tts_failure_keeps_turn_witness :
    ∃ body, (discussHandler c9Env c9Req).1 = HandlerResult.ok body ∧
      body.audioData = none ∧
      body.message = jsTrim (messageOf c9Resp) :=
  tts_failure_keeps_turn c9Env c9Req c9Resp rfl (by decide) (by decide)

/-- C2 counterexample: the driver issues qa in the same Promise.all
batch as backend and frontend, with only the architect entry in its
context, so the claimed ordering property fails at a concrete turn. -/
theorem qa_dispatch_counterexample :
    ¬ qaAfterBackendFrontend
        (handleTranscriptBatches "Build a todo list app" false false none c2ArchitectBody) := by
  intro h
  have hq := h 1 c2QaReq (by decide) (by decide) rfl
  exact absurd hq.2.2 (by decide)

/-- C2 amended: whenever the driver proceeds past the architect stage
(no research short-circuit), it issues backend, frontend and qa
concurrently in a single second batch — qa is not delayed until backend
and frontend resolve — and each of the three carries only the architect
entry as prior context. -/
theorem qa_dispatch_amended (text : String) (demoMode applyResearchToNext : Bool)
    (storedResearch : Option ResearchData) (architectData : OkBody)
    (hproceed : architectData.researchData.isSome = false
      ∨ (applyResearchToNext && storedResearch.isSome) = true) :
    handleTranscriptBatches text demoMode applyResearchToNext storedResearch architectData =
      [ [{ transcript := text, agentRole := "architect", context := [],
           demoMode := demoMode,
           previousResearch := if applyResearchToNext && storedResearch.isSome
             then storedResearch else none }]
      , [ { transcript := text, agentRole := "backend",
            context := [{ role := "Architect", message := architectData.message }],
            demoMode := demoMode,
            previousResearch := if applyResearchToNext && storedResearch.isSome
              then storedResearch else none }
        , { transcript := text, agentRole := "frontend",
            context := [{ role := "Architect", message := architectData.message }],
            demoMode := demoMode,
            previousResearch := if applyResearchToNext && storedResearch.isSome
              then storedResearch else none }
        , { transcript := text, agentRole := "qa",
            context := [{ role := "Architect", message := architectData.message }],
            demoMode := demoMode,
            previousResearch := if applyResearchToNext && storedResearch.isSome
              then storedResearch else none } ] ] := by
  rcases hproceed with h | h <;> simp [handleTranscriptBatches, h]

/-- Witness for the amended C2 at a concrete turn without research. -/
theorem qa_dispatch_amended_witness :
    handleTranscriptBatches "Build a todo list app" false false none c2ArchitectBody =
      [ [{ transcript := "Build a todo list app", agentRole := "architect", context := [],
           demoMode := false, previousResearch := none }]
      , [ { transcript := "Build a todo list app", agentRole := "backend",
            context := [{ role := "Architect", message := "Plan." }],
            demoMode := false, previousResearch := none }
        , { transcript := "Build a todo list app", agentRole := "frontend",
            context := [{ role := "Architect", message := "Plan." }],
            demoMode := false, previousResearch := none }
        , c2QaReq ] ] :=
  qa_dispatch_amended "Build a todo list app" false false none c2ArchitectBody (Or.inl rfl)

/-- C3 counterexample: the research short-circuit 200 body carries
neither a truncated flag nor a tokenInfo object, refuting the claim that
every 200 response carries both. -/
theorem discuss_shape_counterexample :
    (discussHandler c3Env c3Req).1 =
      HandlerResult.ok (shortCircuitBody "research" (getMockResearchData "research")) ∧
    (shortCircuitBody "research" (getMockResearchData "research")).truncated = none ∧
    (shortCircuitBody "research" (getMockResearchData "research")).tokenInfo = none :=
  ⟨by decide, rfl, rfl⟩

/-- C3 amended: a 200 body produced through the model path always
carries the truncated flag and the tokenInfo object; the research
short-circuit 200 body carries neither, with audioData null and
researchData present. -/
theorem discussHandler_result_cases (env : Env) (req : DiscussRequest) :
    (∃ msg, discussHandler env req = (HandlerResult.badRequest msg, noEffects)) ∨
    (∃ rd sc, discussHandler env req
        = (HandlerResult.ok (shortCircuitBody req.transcript rd), shortCircuitEffects sc)) ∨
    (∃ sc, discussHandler env req = modelPhase env req sc) := by
  unfold discussHandler
  split_ifs with h1 h2
  · exact Or.inl ⟨_, rfl⟩
  · exact Or.inl ⟨_, rfl⟩
  · rcases hg : researchGate env req with ⟨g1, g2⟩
    cases g1
    · exact Or.inr (Or.inr ⟨g2, rfl⟩)
    · exact Or.inr (Or.inl ⟨_, g2, rfl⟩)

theorem modelPhase_error (env : Env) (req : DiscussRequest) (d : String)
    (h : env.modelOutcome = Except.error d) (sc : Bool) :
    (modelPhase env req sc).1
      = HandlerResult.serverError "Failed to generate agent response" d := by
  unfold modelPhase
  rw [h]

theorem discuss_shape_amended (env : Env) (req : DiscussRequest) (body : OkBody)
    (hok : (discussHandler env req).1 = HandlerResult.ok body) :
    ((discussHandler env req).2.modelPrompt.isSome = true →
      body.truncated.isSome = true ∧ body.tokenInfo.isSome = true) ∧
    ((discussHandler env req).2.modelPrompt = none →
      body.truncated = none ∧ body.tokenInfo = none ∧ body.audioData = none ∧
      body.researchData.isSome = true) := by
  rcases discussHandler_result_cases env req with ⟨msg, hcase⟩ | ⟨rd, sc, hcase⟩ | ⟨sc, hcase⟩
  · rw [hcase] at hok
    exact HandlerResult.noConfusion hok
  · rw [hcase] at hok ⊢
    have hok2 : HandlerResult.ok (shortCircuitBody req.transcript rd)
        = HandlerResult.ok body := hok
    injection hok2 with hb
    subst hb
    exact ⟨fun habs => Bool.noConfusion habs, fun _ => ⟨rfl, rfl, rfl, rfl⟩⟩
  · rw [hcase] at hok ⊢
    constructor
    · intro _
      rcases hmo : env.modelOutcome with d | resp
      · rw [modelPhase_error env req d hmo sc] at hok
        exact HandlerResult.noConfusion hok
      · rw [modelPhase_ok env req resp hmo sc] at hok
        have hok2 : HandlerResult.ok (successBody env req resp)
            = HandlerResult.ok body := hok
        injection hok2 with hb
        subst hb
        exact ⟨rfl, rfl⟩
    · intro habs
      rw [modelPhase_modelPrompt] at habs
      exact Option.noConfusion habs

/-- Witness for the amended C3: both implications instantiated at the
concrete short-circuit turn of the counterexample. -/
theorem discuss_shape_amended_witness :
    (((discussHandler c3Env c3Req).2.modelPrompt.isSome = true →
      (shortCircuitBody "research" (getMockResearchData "research")).truncated.isSome = true ∧
      (shortCircuitBody "research" (getMockResearchData "research")).tokenInfo.isSome = true) ∧
    ((discussHandler c3Env c3Req).2.modelPrompt = none →
      (shortCircuitBody "research" (getMockResearchData "research")).truncated = none ∧
      (shortCircuitBody "research" (getMockResearchData "research")).tokenInfo = none ∧
      (shortCircuitBody "research" (getMockResearchData "research")).audioData = none ∧
      (shortCircuitBody "research" (getMockResearchData "research")).researchData.isSome = true)) :=
  discuss_shape_amended c3Env c3Req
    (shortCircuitBody "research" (getMockResearchData "research")) (by decide)

/-- C5 counterexample: a request with a transcript but an empty
agentRole receives the 400 missing-fields response, whose body does not
name the accepted roles, refuting the claim that every such 400 names
them. -/
theorem invalid_input_counterexample :
    discussHandler c5Env c5ReqMissing
      = (HandlerResult.badRequest missingFieldsMessage, noEffects) ∧
    ¬ strContains missingFieldsMessage "architect" :=
  ⟨by decide, by decide⟩

/-- C5 amended: a request with a non-empty transcript and a non-empty
unrecognized agentRole receives a 400 naming the four accepted roles and
triggers no external call; a missing (empty) transcript or agentRole
receives a 400 with the missing-fields message — which does not name the
roles — likewise with no external call. -/
theorem invalid_input_amended (env : Env) (req : DiscussRequest) :
    ((req.transcript = "" ∨ req.agentRole = "") →
      discussHandler env req = (HandlerResult.badRequest missingFieldsMessage, noEffects)) ∧
    (req.transcript ≠ "" → req.agentRole ≠ "" → req.agentRole ∉ validRoles →
      discussHandler env req = (HandlerResult.badRequest invalidRoleMessage, noEffects) ∧
      strContains invalidRoleMessage "architect" ∧
      strContains invalidRoleMessage "backend" ∧
      strContains invalidRoleMessage "frontend" ∧
      strContains invalidRoleMessage "qa") := by
  constructor
  · intro h
    unfold discussHandler
    rw [if_pos (show (decide (req.transcript = "") || decide (req.agentRole = "")) = true
      from by rcases h with h | h <;> simp [h])]
  · intro ht hrole hmem
    refine ⟨?_, by decide, by decide, by decide, by decide⟩
    unfold discussHandler
    have h1 : ¬ ((decide (req.transcript = "") || decide (req.agentRole = "")) = true) := by
      simp [ht, hrole]
    rw [if_neg h1, if_pos (lookup_none_of_not_mem req.agentRole hmem)]

/-- Witness for the amended C5 at concrete requests: one with a missing
role, one with an unrecognized role. -/
theorem invalid_input_amended_witness :
    discussHandler c5Env c5ReqMissing
      = (HandlerResult.badRequest missingFieldsMessage, noEffects) ∧
    (discussHandler c5Env c5ReqUnknown
      = (HandlerResult.badRequest invalidRoleMessage, noEffects) ∧
      strContains invalidRoleMessage "architect" ∧
      strContains invalidRoleMessage "backend" ∧
      strContains invalidRoleMessage "frontend" ∧
      strContains invalidRoleMessage "qa") :=
  ⟨(invalid_input_amended c5Env c5ReqMissing).1 (Or.inr rfl),
   (invalid_input_amended c5Env c5ReqUnknown).2 (by decide) (by decide) (by decide)⟩

end VoiceSquad
